import Mathlib

/-!
Verification of the constellation-background particle core of
`src/scripts.js` (createConstellationBackground and its helpers), as a
shallow embedding in Lean.  JS numbers are modelled as exact rationals;
`Math.random()`-driven construction is parametrised by an explicit
supply of particles.
-/

namespace Constellation

/-- A particle, mirroring the fields set in the `Dot` class constructor:
position `(x, y)`, velocity `(vx, vy)` and `radius`, all JS numbers. -/
structure Dot where
  x : ℚ
  y : ℚ
  vx : ℚ
  vy : ℚ
  radius : ℚ
deriving DecidableEq, Repr

/-- `Dot.prototype.update`: advance the position by the velocity, negate a
velocity component when the advanced coordinate left `[0, dimension]`
(the test is `this.x < 0 || this.x > window.innerWidth`, strict on both
sides), then clamp both coordinates back into the interval with
`Math.max(0, Math.min(dim, coord))`.  `width` is `window.innerWidth` and
`height` is `document.documentElement.scrollHeight` at call time. -/
def Dot.update (width height : ℚ) (d : Dot) : Dot :=
  let x1 := d.x + d.vx
  let y1 := d.y + d.vy
  let vx1 := if x1 < 0 ∨ x1 > width then -d.vx else d.vx
  let vy1 := if y1 < 0 ∨ y1 > height then -d.vy else d.vy
  { x := max 0 (min width x1)
    y := max 0 (min height y1)
    vx := vx1
    vy := vy1
    radius := d.radius }

/-- `initDots`: picks the divisor (`8000` when `width <= 768`, else `15000`),
sets `dotCount = Math.floor(width * height / divisor)` and pushes that many
freshly constructed dots.  The `Math.random()`-driven `new Dot()` calls are
parametrised by the supply `mk`. -/
def initDots (width height : ℚ) (mk : ℕ → Dot) : List Dot :=
  let divisor : ℚ := if width ≤ 768 then 8000 else 15000
  let dotCount : ℤ := ⌊width * height / divisor⌋
  (List.range dotCount.toNat).map mk

/-- A fixed placeholder particle used to instantiate the particle supply in
closed statements. -/
def d0 : Dot := ⟨0, 0, 0, 0, 1⟩

/-- One frame of the animation loop `animate`: it clears the canvas, then for
every dot runs `update` and `draw`, draws the connections, and
unconditionally requests the next frame.  The body contains no check of any
page-visibility state (neither `document.hidden` nor any flag), so the
frame is parametrised here by the environment visibility `hidden` that the
code never reads.  The result is the updated particle list paired with
whether the next frame was requested. -/
def animateFrame (width height : ℚ) (hidden : Bool) (dots : List Dot) :
    List Dot × Bool :=
  match hidden with
  | true => (dots.map (Dot.update width height), true)
  | false => (dots.map (Dot.update width height), true)

/-- The `maxDistance` constant of `drawConnections`. -/
def maxDistance : ℚ := 150

/-- Squared Euclidean distance `dx * dx + dy * dy` between two dots, as
computed in `drawConnections`. -/
def distSq (p q : Dot) : ℚ := (p.x - q.x) * (p.x - q.x) + (p.y - q.y) * (p.y - q.y)

/-- The pair filter of `drawConnections`: the code computes
`distance = Math.sqrt(dx*dx + dy*dy)` and draws iff `distance < maxDistance`;
since both sides are nonnegative this is the same as comparing the squares,
which keeps the predicate evaluable over exact rationals.  The equivalence
with the source's square-root form is proved in
`connectionDrawn_iff_dist_lt`. -/
def connectionDrawn (p q : Dot) : Bool :=
  decide (distSq p q < maxDistance * maxDistance)

/-- The opacity `(1 - distance / maxDistance) * 0.3` of a drawn connection,
as a function of the Euclidean distance. -/
def connectionOpacity (dist : ℚ) : ℚ := (1 - dist / maxDistance) * (3 / 10)

/-- The canvas surface state touched by `resizeCanvas`: the backing-store
`canvas.width` / `canvas.height` and the scale factor of the context
transform. -/
structure CanvasState where
  backingWidth : ℚ
  backingHeight : ℚ
  ctxScale : ℚ
deriving DecidableEq, Repr

/-- `resizeCanvas`: `dpr = window.devicePixelRatio || 1` (the `|| 1`
fallback fires when the reported ratio is `0` or unset), then
`canvas.width = width * dpr`, `canvas.height = height * dpr`, and
`ctx.scale(dpr, dpr)`.  Assigning `canvas.width` / `canvas.height` resets
the 2D context to its default state, transform included, so the
`ctx.scale` call multiplies the identity transform: after every resize the
context's scale factor is exactly `dpr`, whatever it was before. -/
def resizeCanvas (devicePixelRatio width height : ℚ) (_c : CanvasState) :
    CanvasState :=
  let dpr := if devicePixelRatio = 0 then 1 else devicePixelRatio
  { backingWidth := width * dpr
    backingHeight := height * dpr
    ctxScale := 1 * dpr }

/-- The mutable state read and written by `handleResize`: the
`lastKnownWidth` record, the `dots` array and the canvas surface. -/
structure FieldState where
  lastKnownWidth : ℚ
  dots : List Dot
  canvas : CanvasState
deriving Repr

/-- `handleResize`: reads `currentWidth = window.innerWidth`, computes
`widthChanged = Math.abs(currentWidth - lastKnownWidth) > 100`, always calls
`resizeCanvas()`, and only when `widthChanged` holds updates
`lastKnownWidth` and reruns `initDots()`. -/
def handleResize (devicePixelRatio currentWidth height : ℚ) (mk : ℕ → Dot)
    (s : FieldState) : FieldState :=
  let widthChanged := |currentWidth - s.lastKnownWidth| > 100
  let canvas1 := resizeCanvas devicePixelRatio currentWidth height s.canvas
  if widthChanged then
    { lastKnownWidth := currentWidth
      dots := initDots currentWidth height mk
      canvas := canvas1 }
  else
    { lastKnownWidth := s.lastKnownWidth
      dots := s.dots
      canvas := canvas1 }

/-- A sequence of resize events (each the `window.innerWidth` observed by
the throttled handler), processed left to right by `handleResize`. -/
def processResizes (devicePixelRatio height : ℚ) (mk : ℕ → Dot)
    (s : FieldState) (events : List ℚ) : FieldState :=
  events.foldl (fun st w => handleResize devicePixelRatio w height mk st) s

/-- The successful outcome of `createConstellationBackground`: the particle
array built by `initDots` and the fact that `animate()` was started. -/
structure InitOk where
  dots : List Dot
  animationStarted : Bool
deriving Repr

/-- The initialization sequence of `createConstellationBackground`:
`ctx = canvas.getContext('2d')` (which may yield null), then
`resizeCanvas(); initDots(); animate()`.  The source performs `ctx.scale`
inside `resizeCanvas` without any null check, so when the context was not
acquired the first context operation raises a TypeError and neither
`initDots` nor `animate` runs; the exception propagates out. -/
def createConstellationInit (ctxAcquired : Bool) (width height : ℚ)
    (mk : ℕ → Dot) : Except String InitOk :=
  if ctxAcquired then
    Except.ok { dots := initDots width height mk, animationStarted := true }
  else
    Except.error "TypeError: ctx is null in resizeCanvas at ctx.scale"

/-- Unfolding lemma for `handleResize`: the handler either repopulates and
records the new width, or leaves both untouched, always resizing the
canvas. -/
theorem handleResize_eq (r w h : ℚ) (mk : ℕ → Dot) (s : FieldState) :
    handleResize r w h mk s =
      if |w - s.lastKnownWidth| > 100 then
        { lastKnownWidth := w, dots := initDots w h mk,
          canvas := resizeCanvas r w h s.canvas }
      else
        { lastKnownWidth := s.lastKnownWidth, dots := s.dots,
          canvas := resizeCanvas r w h s.canvas } :=
  rfl

/-- C1 counterexample -- at `width = 1600`, `height = 1200` the code creates
`⌊1600 * 1200 / 15000⌋ = 128` particles, not the claimed `96`; and at
`width = 3000`, `height = 1000` it creates `200 > 150` particles, so no cap
at `150` exists. -/
theorem initDots_count_uncapped :
    (initDots 1600 1200 (fun _ => d0)).length = 128 ∧ (128 : ℕ) ≠ 96 ∧
    (initDots 3000 1000 (fun _ => d0)).length = 200 ∧ ¬ (200 : ℕ) ≤ 150 := by
  refine ⟨?_, by norm_num, ?_, by norm_num⟩ <;>
    · simp [initDots]
      norm_num
      decide

/-- C1 (amended) -- the particle count is exactly
`⌊width * height / divisor⌋` with NO cap, where the divisor is `8000` on
narrow viewports (`width ≤ 768`) and `15000` otherwise -- smaller on narrow
viewports; in particular at `1600 × 1200` the count is `128`. -/
theorem initDots_count (width height : ℚ) (mk : ℕ → Dot) :
    (initDots width height mk).length =
      (⌊width * height / (if width ≤ 768 then (8000 : ℚ) else 15000)⌋).toNat ∧
    (8000 : ℚ) < 15000 ∧
    (initDots 1600 1200 mk).length = 128 := by
  refine ⟨by simp [initDots], by norm_num, ?_⟩
  simp [initDots]
  norm_num
  decide

/-- C2 counterexample -- with the page hidden (visibility flag false), one
scheduled frame still moves a particle with nonzero velocity: the code has
no visibility gating, so positions are NOT unchanged while hidden. -/
theorem animateFrame_moves_while_hidden :
    (animateFrame 100 100 true [⟨10, 10, 1, 0, 1⟩]).1 ≠ [⟨10, 10, 1, 0, 1⟩] := by
  simp [animateFrame, Dot.update]
  norm_num

/-- C2 (amended) -- the per-frame callback performs the identical update and
draw work regardless of any visibility state (the code never consults one):
every scheduled frame advances each particle by the `update` rule and
unconditionally reschedules itself, hidden or not. -/
theorem animateFrame_ignores_visibility (width height : ℚ) (hidden : Bool)
    (dots : List Dot) :
    animateFrame width height hidden dots =
      animateFrame width height (!hidden) dots ∧
    (animateFrame width height hidden dots).1 =
      dots.map (Dot.update width height) ∧
    (animateFrame width height hidden dots).2 = true := by
  cases hidden <;> exact ⟨rfl, rfl, rfl⟩

/-- C3 -- After one `update`, the clamped `x` lies in `[0, width]` and the
clamped `y` lies in `[0, height]`, for every starting position and
velocity, whenever the logical dimensions are nonnegative. -/
theorem update_clamps_into_bounds (width height : ℚ) (d : Dot)
    (hw : 0 ≤ width) (hh : 0 ≤ height) :
    (0 ≤ (d.update width height).x ∧ (d.update width height).x ≤ width) ∧
    (0 ≤ (d.update width height).y ∧ (d.update width height).y ≤ height) := by
  refine ⟨⟨le_max_left _ _, ?_⟩, ⟨le_max_left _ _, ?_⟩⟩
  · exact max_le hw (min_le_left _ _)
  · exact max_le hh (min_le_left _ _)

/-- Witness for C3 at concrete values. -/
theorem update_clamps_into_bounds_witness :
    (0 ≤ (Dot.update 100 50 ⟨200, -3, 1, -1, 1⟩).x ∧
      (Dot.update 100 50 ⟨200, -3, 1, -1, 1⟩).x ≤ 100) ∧
    (0 ≤ (Dot.update 100 50 ⟨200, -3, 1, -1, 1⟩).y ∧
      (Dot.update 100 50 ⟨200, -3, 1, -1, 1⟩).y ≤ 50) :=
  update_clamps_into_bounds 100 50 ⟨200, -3, 1, -1, 1⟩ (by norm_num) (by norm_num)

/-- C4 counterexample -- a resize from recorded width `1000` to `1060`
(delta `60 > 50`) leaves the particle array untouched: the code's threshold
is `100`, not `50`, so a delta of `60` does not repopulate (repopulation at
width `1060`, height `500` would have produced `35` dots, not the single
existing one). -/
theorem handleResize_threshold_counterexample :
    |(1060 : ℚ) - 1000| > 50 ∧
    (handleResize 1 1060 500 (fun _ => d0) ⟨1000, [d0], ⟨0, 0, 1⟩⟩).dots = [d0] ∧
    (initDots 1060 500 (fun _ => d0)).length = 35 ∧ (35 : ℕ) ≠ 1 := by
  refine ⟨by norm_num, ?_, ?_, by norm_num⟩
  · simp [handleResize]
    norm_num
  · simp [initDots]
    norm_num
    decide

/-- C4 (amended) -- the resize handler's width threshold is `100` logical
pixels, not `50`: when the current width differs from the recorded width by
at most `100` the particle array and the record are unchanged, and when it
differs by more than `100` the handler repopulates via `initDots` and
records the new width. -/
theorem handleResize_threshold (devicePixelRatio width height : ℚ)
    (mk : ℕ → Dot) (s : FieldState) :
    (|width - s.lastKnownWidth| ≤ 100 →
      (handleResize devicePixelRatio width height mk s).dots = s.dots ∧
      (handleResize devicePixelRatio width height mk s).lastKnownWidth =
        s.lastKnownWidth) ∧
    (|width - s.lastKnownWidth| > 100 →
      (handleResize devicePixelRatio width height mk s).dots =
        initDots width height mk ∧
      (handleResize devicePixelRatio width height mk s).lastKnownWidth =
        width) := by
  constructor
  · intro hle
    rw [handleResize, if_neg (by simpa using not_lt.mpr hle)]
    exact ⟨rfl, rfl⟩
  · intro hgt
    rw [handleResize, if_pos (by simpa using hgt)]
    exact ⟨rfl, rfl⟩

/-- Witness for the amended C4 at concrete values: delta `60` preserves the
dots, delta `120` repopulates. -/
theorem handleResize_threshold_witness :
    ((handleResize 1 1060 500 (fun _ => d0) ⟨1000, [d0], ⟨0, 0, 1⟩⟩).dots =
        [d0] ∧
      (handleResize 1 1060 500 (fun _ => d0)
          ⟨1000, [d0], ⟨0, 0, 1⟩⟩).lastKnownWidth = 1000) ∧
    ((handleResize 1 1120 500 (fun _ => d0) ⟨1000, [d0], ⟨0, 0, 1⟩⟩).dots =
        initDots 1120 500 (fun _ => d0) ∧
      (handleResize 1 1120 500 (fun _ => d0)
          ⟨1000, [d0], ⟨0, 0, 1⟩⟩).lastKnownWidth = 1120) :=
  ⟨(handleResize_threshold 1 1060 500 (fun _ => d0)
      ⟨1000, [d0], ⟨0, 0, 1⟩⟩).1 (by norm_num),
    (handleResize_threshold 1 1120 500 (fun _ => d0)
      ⟨1000, [d0], ⟨0, 0, 1⟩⟩).2 (by norm_num)⟩

/-- The square-distance filter agrees with the source's
`Math.sqrt(...) < 150` test. -/
theorem connectionDrawn_iff_dist_lt (p q : Dot) :
    connectionDrawn p q = true ↔ Real.sqrt (distSq p q) < 150 := by
  have hnn : (0 : ℝ) ≤ (distSq p q : ℝ) := by
    have : (0 : ℚ) ≤ distSq p q := by
      have := mul_self_nonneg (p.x - q.x)
      have := mul_self_nonneg (p.y - q.y)
      unfold distSq
      linarith
    exact_mod_cast this
  rw [connectionDrawn, decide_eq_true_iff, maxDistance,
    show Real.sqrt (distSq p q) < 150 ↔ (distSq p q : ℝ) < 150 ^ 2 from
      Real.sqrt_lt' (by norm_num)]
  constructor
  · intro h
    have h22500 : distSq p q < 22500 := by linarith
    have : (distSq p q : ℝ) < 22500 := by exact_mod_cast h22500
    nlinarith
  · intro h
    have : (distSq p q : ℝ) < 22500 := by nlinarith
    have h22500 : distSq p q < (22500 : ℚ) := by exact_mod_cast this
    linarith

/-- C5 -- a connection line is drawn between two dots iff their Euclidean
distance is below `150`; the opacity `(1 - d/150) * 0.3` is `0.3` at
distance `0`, `0` at the threshold distance `150` (at and beyond which no
line is drawn), and strictly decreasing in the distance. -/
theorem drawConnections_opacity :
    (∀ p q : Dot, connectionDrawn p q = true ↔ Real.sqrt (distSq p q) < 150) ∧
    connectionOpacity 0 = 3 / 10 ∧
    connectionOpacity 150 = 0 ∧
    (∀ p q : Dot, 150 ≤ Real.sqrt (distSq p q) → connectionDrawn p q = false) ∧
    (∀ d₁ d₂ : ℚ, d₁ < d₂ → connectionOpacity d₂ < connectionOpacity d₁) := by
  refine ⟨connectionDrawn_iff_dist_lt, by norm_num [connectionOpacity, maxDistance],
    by norm_num [connectionOpacity, maxDistance], ?_, ?_⟩
  · intro p q h
    rcases hb : connectionDrawn p q with _ | _
    · rfl
    · exact absurd ((connectionDrawn_iff_dist_lt p q).mp hb) (not_lt.mpr h)
  · intro d₁ d₂ hlt
    unfold connectionOpacity maxDistance
    have h : d₁ / 150 < d₂ / 150 := by gcongr
    nlinarith

/-- Witness for C5 at concrete inputs: two dots at Euclidean distance
exactly `150` (a 90-120-150 right triangle) get no line, and opacity is
strictly smaller at distance `100` than at `50`. -/
theorem drawConnections_opacity_witness :
    connectionDrawn ⟨0, 0, 0, 0, 1⟩ ⟨90, 120, 0, 0, 1⟩ = false ∧
    connectionOpacity 100 < connectionOpacity 50 := by
  refine ⟨?_, drawConnections_opacity.2.2.2.2 50 100 (by norm_num)⟩
  apply drawConnections_opacity.2.2.2.1
  have : distSq ⟨0, 0, 0, 0, 1⟩ ⟨90, 120, 0, 0, 1⟩ = 22500 := by
    norm_num [distSq]
  rw [this]
  have h150 : ((22500 : ℚ) : ℝ) = (150 : ℝ) ^ 2 := by norm_num
  rw [h150, Real.sqrt_sq (by norm_num)]

/-- C6 counterexample -- a particle with pre-update `x = 1 ∈ [0, |vx|]` and
`vx = -1 < 0` whose `vx` is NOT flipped by `update`: the advanced
coordinate is exactly `0`, and the bounce test `x < 0` is strict, so at
`x = |vx|` no sign flip occurs, refuting the claim on its closed
interval `[0, |vx|]`. -/
theorem update_no_flip_at_boundary :
    (0 : ℚ) ≤ 1 ∧ (1 : ℚ) ≤ |(-1 : ℚ)| ∧ (-1 : ℚ) < 0 ∧
    (Dot.update 100 100 ⟨1, 50, -1, 0, 1⟩).vx = -1 ∧
    (Dot.update 100 100 ⟨1, 50, -1, 0, 1⟩).vx ≠ -(-1 : ℚ) := by
  refine ⟨by norm_num, by norm_num, by norm_num, ?_, ?_⟩ <;>
    simp [Dot.update] <;> norm_num

/-- C6 (amended) -- if the pre-update `x` lies in the half-open interval
`[0, |vx|)` of the left edge and `vx` is negative, then `update` flips the
sign of `vx`.  (At `x = |vx|` exactly the advanced coordinate is `0` and no
flip occurs, hence the strict bound.) -/
theorem update_flips_vx_near_left_edge (width height : ℚ) (d : Dot)
    (hneg : d.vx < 0) (h0 : 0 ≤ d.x) (hlt : d.x < |d.vx|) :
    (d.update width height).vx = -d.vx := by
  have habs : |d.vx| = -d.vx := abs_of_neg hneg
  have hx1 : d.x + d.vx < 0 := by
    have h := hlt
    rw [habs] at h
    linarith
  simp only [Dot.update]
  rw [if_pos (Or.inl hx1)]

/-- Witness for the amended C6 at concrete values. -/
theorem update_flips_vx_near_left_edge_witness :
    (Dot.update 100 100 ⟨(1 : ℚ)/4, 50, -(1 : ℚ)/2, 0, 1⟩).vx = -(-(1 : ℚ)/2) :=
  update_flips_vx_near_left_edge 100 100 ⟨(1 : ℚ)/4, 50, -(1 : ℚ)/2, 0, 1⟩
    (by norm_num) (by norm_num) (by norm_num [abs_of_neg])

/-- C7 counterexample -- when the 2D context cannot be acquired, the
initialization sequence does NOT degrade silently: the unguarded
`ctx.scale` call inside `resizeCanvas` raises a TypeError that propagates
out of `createConstellationBackground`. -/
theorem createConstellation_raises_on_null_ctx :
    createConstellationInit false 1000 500 (fun _ => d0) =
      Except.error "TypeError: ctx is null in resizeCanvas at ctx.scale" ∧
    (createConstellationInit false 1000 500 (fun _ => d0)).isOk = false :=
  ⟨rfl, rfl⟩

/-- C7 (amended) -- when the 2D context cannot be acquired, initialization
constructs no particles and starts no animation, but it raises a TypeError
(from the unguarded `ctx.scale` in `resizeCanvas`) rather than failing
silently; with a context it builds the `initDots` particle array and starts
the animation. -/
theorem createConstellation_null_ctx (width height : ℚ) (mk : ℕ → Dot) :
    createConstellationInit false width height mk =
      Except.error "TypeError: ctx is null in resizeCanvas at ctx.scale" ∧
    createConstellationInit true width height mk =
      Except.ok { dots := initDots width height mk, animationStarted := true } :=
  ⟨rfl, rfl⟩

/-- C8 counterexample -- at device pixel ratio `3` the backing width is
`3 ×` the logical width, not `min 3 2 = 2 ×` it, and the context's scale
factor after the resize is `3`, not `min 3 2 = 2`: no cap at `2` exists
anywhere in the code. -/
theorem resizeCanvas_no_dpr_cap :
    (resizeCanvas 3 100 50 ⟨0, 0, 1⟩).backingWidth = 300 ∧
    (300 : ℚ) ≠ 100 * min 3 2 ∧
    (resizeCanvas 3 100 50 ⟨0, 0, 1⟩).ctxScale = 3 ∧
    (3 : ℚ) ≠ min 3 2 := by
  refine ⟨?_, by norm_num, ?_, by norm_num⟩ <;>
    simp [resizeCanvas] <;> norm_num

/-- C8 (amended) -- after every resize the backing-store dimensions equal
the logical dimensions times the UNCAPPED device pixel ratio (with fallback
`1` when the ratio reads as `0`/unset), and the context's scale factor
equals that same uncapped ratio (the backing-store assignments reset the
transform before `ctx.scale` applies it), so drawing still uses
logical-pixel coordinates. -/
theorem resizeCanvas_uncapped (ratio width height : ℚ) (c : CanvasState)
    (hr : ratio ≠ 0) :
    (resizeCanvas ratio width height c).backingWidth = width * ratio ∧
    (resizeCanvas ratio width height c).backingHeight = height * ratio ∧
    (resizeCanvas ratio width height c).ctxScale = ratio ∧
    (resizeCanvas 0 width height c).ctxScale = 1 := by
  refine ⟨?_, ?_, ?_, ?_⟩ <;> simp [resizeCanvas, hr]

/-- Witness for the amended C8 at concrete values. -/
theorem resizeCanvas_uncapped_witness :
    (resizeCanvas 3 100 50 ⟨0, 0, 7⟩).backingWidth = 100 * 3 ∧
    (resizeCanvas 3 100 50 ⟨0, 0, 7⟩).backingHeight = 50 * 3 ∧
    (resizeCanvas 3 100 50 ⟨0, 0, 7⟩).ctxScale = 3 ∧
    (resizeCanvas 0 100 50 (⟨0, 0, 7⟩ : CanvasState)).ctxScale = 1 :=
  resizeCanvas_uncapped 3 100 50 ⟨0, 0, 7⟩ (by norm_num)

/-- C9 -- `update` never changes the radius, and each velocity component is
either kept or negated, so speed magnitudes and size are invariant. -/
theorem update_preserves_radius_and_speed (width height : ℚ) (d : Dot) :
    (d.update width height).radius = d.radius ∧
    ((d.update width height).vx = d.vx ∨ (d.update width height).vx = -d.vx) ∧
    ((d.update width height).vy = d.vy ∨ (d.update width height).vy = -d.vy) := by
  refine ⟨rfl, ?_, ?_⟩ <;> simp only [Dot.update] <;> split <;> simp

/-- C10 -- the handler compares the incoming width against the width
recorded at the last repopulation (updating the record only when it
repopulates), so repopulation fires exactly when the cumulative change
since the last repopulation exceeds `100`; in particular three successive
`+40` events from a recorded `1000` leave the dots alone twice and then
repopulate at `1120`, where the cumulative change `120` first exceeds the
threshold although every inter-event change is `40`. -/
theorem handleResize_cumulative (devicePixelRatio width height : ℚ)
    (mk : ℕ → Dot) (s : FieldState) (ds : List Dot) (c : CanvasState) :
    ((handleResize devicePixelRatio width height mk s).lastKnownWidth =
      if |width - s.lastKnownWidth| > 100 then width else s.lastKnownWidth) ∧
    ((handleResize devicePixelRatio width height mk s).dots =
      if |width - s.lastKnownWidth| > 100 then initDots width height mk
      else s.dots) ∧
    (processResizes devicePixelRatio height mk ⟨1000, ds, c⟩
      [1040, 1080]).dots = ds ∧
    (processResizes devicePixelRatio height mk ⟨1000, ds, c⟩
      [1040, 1080, 1120]).dots = initDots 1120 height mk ∧
    (processResizes devicePixelRatio height mk ⟨1000, ds, c⟩
      [1040, 1080, 1120]).lastKnownWidth = 1120 := by
  have hstep : ∀ (w : ℚ) (c1 : CanvasState), ¬ |w - (1000 : ℚ)| > 100 →
      handleResize devicePixelRatio w height mk ⟨1000, ds, c1⟩ =
        ⟨1000, ds, resizeCanvas devicePixelRatio w height c1⟩ := by
    intro w c1 hw
    rw [handleResize_eq]
    exact if_neg hw
  refine ⟨?_, ?_, ?_, ?_, ?_⟩
  · rw [handleResize_eq]
    split <;> rfl
  · rw [handleResize_eq]
    split <;> rfl
  · simp only [processResizes, List.foldl]
    rw [hstep 1040 c (by norm_num), hstep 1080 _ (by norm_num)]
  · simp only [processResizes, List.foldl]
    rw [hstep 1040 c (by norm_num), hstep 1080 _ (by norm_num),
      handleResize_eq, if_pos (by norm_num)]
  · simp only [processResizes, List.foldl]
    rw [hstep 1040 c (by norm_num), hstep 1080 _ (by norm_num),
      handleResize_eq, if_pos (by norm_num)]

end Constellation
